import Mathlib

/-!
Verification development for the CRE DCF valuation tool
(src/CRE_underwriting_project_DEPLOYMENT.py).

The Python engine computes with IEEE doubles; this development embeds the
same formulas over ℚ (exact arithmetic), which is the standard shallow
embedding for checking the algebraic and branching structure of the code.
Python integers (years) are embedded as ℕ, with the signed subtractions
that the source performs on them carried out in ℤ where the source's
branch conditions depend on the sign.

Python raises ZeroDivisionError on division by zero; Lean's `/` on ℚ
totalises it as 0.  For the functions where a claim is about reachability
of a division-by-zero (claim C10), a second embedding with an `Option`
result is given (`calculate_debt_serviceE`, `calc_remaining_balanceE`)
that returns `none` exactly on the inputs where the Python code executes
a division whose denominator is zero.
-/

namespace CRE

/-- The four property types offered by the sidebar selectbox
(source line 919). -/
inductive PropertyType where
  | singleFamily
  | multifamily
  | office
  | retail
deriving DecidableEq, Repr

/-- The full assumption bundle collected by the sidebar (source lines
913-1093).  `annual_rent_total` is carried as its own field, exactly as in
the source where it is a separate Python variable; for Single Family and
Multifamily the source always assigns it `(sum of unit rents) * 12`
(lines 969, 980-981), which is recorded by the `WF` predicate below.
All claims in this development concern runs with `tax_rate = 0` (the
source default, line 1085), where the tax branch of the cash-flow loop is
inert (`taxes = 0`, `ATCF = BTCF`, lines 1225-1227), so no tax fields are
needed. -/
structure Assumptions where
  property_type : PropertyType
  units_or_sf : ℚ
  unit_rents : List ℚ
  annual_rent_total : ℚ
  purchase_price : ℚ
  closing_costs : ℚ
  rent_growth : ℚ
  vacancy : ℚ
  opex_per_unit_or_sf : ℚ
  opex_growth : ℚ
  capex_per_unit_or_sf : ℚ
  management_fee : ℚ
  loan_to_value : ℚ
  interest_rate : ℚ
  amortization : ℕ
  io_period : ℕ
  holding_period : ℕ
  exit_cap_rate : ℚ
  selling_costs : ℚ
  discount_rate : ℚ
deriving DecidableEq, Repr

/-- Well-formedness of the input bundle as constructed by the sidebar:
for Single Family and Multifamily the source sets
`annual_rent_total = sum(unit_rents) * 12` (lines 968-969, 980-981);
for Office/Retail `annual_rent_total` is entered directly (line 990). -/
def WF (a : Assumptions) : Prop :=
  match a.property_type with
  | PropertyType.singleFamily => a.annual_rent_total = a.unit_rents.sum * 12
  | PropertyType.multifamily => a.annual_rent_total = a.unit_rents.sum * 12
  | _ => True

instance (a : Assumptions) : Decidable (WF a) := by
  unfold WF
  cases a.property_type <;> infer_instance

/-- Source line 1096: `total_acquisition = purchase_price + closing_costs`. -/
def total_acquisition (a : Assumptions) : ℚ :=
  a.purchase_price + a.closing_costs

/-- Source line 1097: `loan_amount = purchase_price * (loan_to_value / 100)`. -/
def loan_amount (a : Assumptions) : ℚ :=
  a.purchase_price * (a.loan_to_value / 100)

/-- Source line 1098: `equity_required = total_acquisition - loan_amount`. -/
def equity_required (a : Assumptions) : ℚ :=
  total_acquisition a - loan_amount a

/-- Source lines 1106-1109: year-1 gross rental income (both branches
assign `annual_rent_total`). -/
def year_1_gri (a : Assumptions) : ℚ :=
  a.annual_rent_total

/-- Source line 1111: `year_1_egi = year_1_gri * (1 - vacancy / 100)`. -/
def year_1_egi (a : Assumptions) : ℚ :=
  year_1_gri a * (1 - a.vacancy / 100)

/-- Source lines 1113-1118: year-1 operating expenses, branched on the
property type. -/
def year_1_opex (a : Assumptions) : ℚ :=
  match a.property_type with
  | PropertyType.singleFamily => a.opex_per_unit_or_sf
  | _ => a.opex_per_unit_or_sf * a.units_or_sf

/-- Source line 1120: `year_1_mgmt = year_1_egi * (management_fee / 100)`. -/
def year_1_mgmt (a : Assumptions) : ℚ :=
  year_1_egi a * (a.management_fee / 100)

/-- Source line 1121: `year_1_noi = year_1_egi - year_1_opex - year_1_mgmt`. -/
def year_1_noi (a : Assumptions) : ℚ :=
  year_1_egi a - year_1_opex a - year_1_mgmt a

/-- Source lines 1124-1132, `calculate_debt_service`: annual debt service
for a given projection year.  The subtraction `amortization - io_period`
is performed in ℤ, as in Python, because the branch on
`remaining_payments <= 0` depends on its sign. -/
def calculate_debt_service (year : ℕ) (loan ir : ℚ) (amort io : ℕ) : ℚ :=
  if year ≤ io ∨ loan = 0 then loan * (ir / 100)
  else
    let monthly_rate : ℚ := ir / 100 / 12
    let remaining_payments : ℤ := ((amort : ℤ) - (io : ℤ)) * 12
    if remaining_payments ≤ 0 then 0
    else
      let monthly_pmt : ℚ :=
        loan * (monthly_rate * (1 + monthly_rate) ^ remaining_payments.toNat) /
          ((1 + monthly_rate) ^ remaining_payments.toNat - 1)
      monthly_pmt * 12

/-- Error-aware variant of `calculate_debt_service`: returns `none`
exactly when the Python function executes a division whose denominator
is zero (raising ZeroDivisionError), namely when the annuity denominator
`(1 + monthly_rate) ^ remaining_payments - 1` vanishes on the amortizing
branch. -/
def calculate_debt_serviceE (year : ℕ) (loan ir : ℚ) (amort io : ℕ) : Option ℚ :=
  if year ≤ io ∨ loan = 0 then some (loan * (ir / 100))
  else
    let monthly_rate : ℚ := ir / 100 / 12
    let remaining_payments : ℤ := ((amort : ℤ) - (io : ℤ)) * 12
    if remaining_payments ≤ 0 then some 0
    else
      let den : ℚ := (1 + monthly_rate) ^ remaining_payments.toNat - 1
      if den = 0 then none
      else
        some (loan * (monthly_rate * (1 + monthly_rate) ^ remaining_payments.toNat) / den * 12)

/-- Source lines 1271-1280, `calc_remaining_balance`: closed-form
(annuity present-value) remaining loan balance at the end of the holding
period.  Both signed subtractions are performed in ℤ as in Python. -/
def calc_remaining_balance (loan ir : ℚ) (amort io holding : ℕ) : ℚ :=
  if holding ≤ io ∨ loan = 0 then loan
  else
    let monthly_rate : ℚ := ir / 100 / 12
    let total_pmts : ℤ := ((amort : ℤ) - (io : ℤ)) * 12
    let remaining_pmts : ℤ := ((amort : ℤ) - (holding : ℤ)) * 12
    if remaining_pmts ≤ 0 then 0
    else
      let monthly_pmt : ℚ :=
        loan * (monthly_rate * (1 + monthly_rate) ^ total_pmts.toNat) /
          ((1 + monthly_rate) ^ total_pmts.toNat - 1)
      monthly_pmt * ((1 + monthly_rate) ^ remaining_pmts.toNat - 1) /
        (monthly_rate * (1 + monthly_rate) ^ remaining_pmts.toNat)

/-- Error-aware variant of `calc_remaining_balance`: `none` exactly when
the Python function executes a division with zero denominator (either the
annuity-payment denominator or the present-value denominator). -/
def calc_remaining_balanceE (loan ir : ℚ) (amort io holding : ℕ) : Option ℚ :=
  if holding ≤ io ∨ loan = 0 then some loan
  else
    let monthly_rate : ℚ := ir / 100 / 12
    let total_pmts : ℤ := ((amort : ℤ) - (io : ℤ)) * 12
    let remaining_pmts : ℤ := ((amort : ℤ) - (holding : ℤ)) * 12
    if remaining_pmts ≤ 0 then some 0
    else
      let den1 : ℚ := (1 + monthly_rate) ^ total_pmts.toNat - 1
      if den1 = 0 then none
      else
        let monthly_pmt : ℚ :=
          loan * (monthly_rate * (1 + monthly_rate) ^ total_pmts.toNat) / den1
        let den2 : ℚ := monthly_rate * (1 + monthly_rate) ^ remaining_pmts.toNat
        if den2 = 0 then none
        else
          some (monthly_pmt * ((1 + monthly_rate) ^ remaining_pmts.toNat - 1) / den2)

/-- One month of the amortization loop body of `calculate_cash_flows`
(source lines 1210-1215) iterated `k` times from balance `b0`:
each month pays interest `b * monthly_rate` and principal
`monthly_payment - b * monthly_rate`. -/
def balanceIter (pmt mr b0 : ℚ) : ℕ → ℚ
  | 0 => b0
  | k + 1 =>
      let b := balanceIter pmt mr b0 k
      b - (pmt - b * mr)

/-- The running loan balance held in `current_loan_balance` after the
cash-flow loop of `calculate_cash_flows` (source lines 1158-1217) has
processed years `1 .. year`: untouched while `loan_amount == 0`, during
the interest-only years, and when no amortizing phase exists
(`amortization <= io_period`); otherwise stepped through 12 monthly
interest/principal splits per amortizing year at the fixed payment of
line 1207.  `monthly_rate` is the guarded value of source line 1160. -/
def loanBalanceAfterYear (loan ir : ℚ) (amort io : ℕ) (year : ℕ) : ℚ :=
  if loan = 0 then loan
  else if year ≤ io then loan
  else if io < amort then
    let monthly_rate : ℚ := if 0 < ir then ir / 100 / 12 else 0
    let remaining_payments : ℕ := (amort - io) * 12
    let monthly_payment : ℚ :=
      loan * (monthly_rate * (1 + monthly_rate) ^ remaining_payments) /
        ((1 + monthly_rate) ^ remaining_payments - 1)
    balanceIter monthly_payment monthly_rate loan (12 * (year - io))
  else loan

/-! ## Per-year cash-flow rows (`calculate_cash_flows`, source lines 1144-1246)

With `tax_rate = 0` every output field of a row except the running tax
state is a stateless function of the year, because the source computes
the debt service of each year by the closed formula
`calculate_debt_service(year, ...)` (line 1192), not from the running
balance.  The running balance (needed only for `interest_expense`, i.e.
the tax branch, and studied by claims C7/C8) is `loanBalanceAfterYear`
above. -/

/-- Gross rental income of a projection year (source lines 1165-1170):
unit rents grown from year 1 for Single Family / Multifamily, total
annual rent grown from year 1 otherwise. -/
def gri_year (a : Assumptions) (year : ℕ) : ℚ :=
  match a.property_type with
  | PropertyType.singleFamily =>
      (a.unit_rents.map (fun rent => rent * (1 + a.rent_growth / 100) ^ (year - 1))).sum * 12
  | PropertyType.multifamily =>
      (a.unit_rents.map (fun rent => rent * (1 + a.rent_growth / 100) ^ (year - 1))).sum * 12
  | _ => a.annual_rent_total * (1 + a.rent_growth / 100) ^ (year - 1)

/-- Source line 1172: `egi = gri * (1 - vacancy / 100)`. -/
def egi_year (a : Assumptions) (year : ℕ) : ℚ :=
  gri_year a year * (1 - a.vacancy / 100)

/-- Source lines 1174-1179: operating expenses of a year, grown at the
OpEx growth rate, scaled by unit count / area except for Single Family. -/
def opex_year (a : Assumptions) (year : ℕ) : ℚ :=
  match a.property_type with
  | PropertyType.singleFamily =>
      a.opex_per_unit_or_sf * (1 + a.opex_growth / 100) ^ (year - 1)
  | _ =>
      a.opex_per_unit_or_sf * a.units_or_sf * (1 + a.opex_growth / 100) ^ (year - 1)

/-- Source line 1181: `mgmt = egi * (management_fee / 100)`. -/
def mgmt_year (a : Assumptions) (year : ℕ) : ℚ :=
  egi_year a year * (a.management_fee / 100)

/-- Source lines 1183-1188: the flat (non-growing) CapEx reserve. -/
def capex_year (a : Assumptions) : ℚ :=
  match a.property_type with
  | PropertyType.singleFamily => a.capex_per_unit_or_sf
  | _ => a.capex_per_unit_or_sf * a.units_or_sf

/-- Source line 1190: `noi = egi - opex - mgmt`. -/
def noi_year (a : Assumptions) (year : ℕ) : ℚ :=
  egi_year a year - opex_year a year - mgmt_year a year

/-- Source lines 1191-1192 and 1219: `btcf = (noi - capex) - ds` with the
debt service of the year from `calculate_debt_service`. -/
def btcf_year (a : Assumptions) (year : ℕ) : ℚ :=
  (noi_year a year - capex_year a) -
    calculate_debt_service year (loan_amount a) a.interest_rate a.amortization a.io_period

/-! ## Terminal analysis and returns (source lines 1265-1296) -/

/-- Source lines 1266-1267: `terminal_noi = final_noi * (1 + rent_growth / 100)`
with `final_noi` the NOI of the last projection year. -/
def terminal_noi (a : Assumptions) : ℚ :=
  noi_year a a.holding_period * (1 + a.rent_growth / 100)

/-- Source line 1268:
`sale_price = terminal_noi / (exit_cap_rate / 100) if exit_cap_rate > 0 else 0`. -/
def sale_price (a : Assumptions) : ℚ :=
  if 0 < a.exit_cap_rate then terminal_noi a / (a.exit_cap_rate / 100) else 0

/-- Source line 1269: `sale_costs = sale_price * (selling_costs / 100)`. -/
def sale_costs (a : Assumptions) : ℚ :=
  sale_price a * (a.selling_costs / 100)

/-- Source line 1282: the remaining balance used by the terminal analysis. -/
def remaining_balance (a : Assumptions) : ℚ :=
  calc_remaining_balance (loan_amount a) a.interest_rate a.amortization a.io_period
    a.holding_period

/-- Source line 1283: `net_sale_proceeds = sale_price - sale_costs - remaining_balance`. -/
def net_sale_proceeds (a : Assumptions) : ℚ :=
  sale_price a - sale_costs a - remaining_balance a

/-- The sum of the yearly BTCF column over years `1 .. holding_period`
(the cash-flow series summed by line 1295 when `tax_rate = 0`). -/
def btcf_sum (a : Assumptions) : ℚ :=
  ((List.range a.holding_period).map (fun i => btcf_year a (i + 1))).sum

/-- Source line 1295:
`equity_multiple = (sum(BTCF) + net_sale_proceeds) / equity_required if equity_required > 0 else 0`
(the `tax_rate = 0` column choice). -/
def equity_multiple (a : Assumptions) : ℚ :=
  if 0 < equity_required a then (btcf_sum a + net_sale_proceeds a) / equity_required a
  else 0

/-! ## Sensitivity loops (source lines 2000-2222)

Both loops are embedded for the Equity Multiple metric choice (their
`else` branch, lines 2070 and 2218), which needs no root finding.  The
five perturbable variables are the fixed set of `var_ranges`
(lines 2004-2010). -/

/-- The five named sensitivity variables (source lines 2004-2010). -/
inductive SensVar where
  | exitCapRate
  | rentGrowthRate
  | interestRate
  | vacancyRate
  | opexGrowthRate
deriving DecidableEq, Repr

/-- The base value of a sensitivity variable in an assumption set. -/
def baseVal (a : Assumptions) : SensVar → ℚ
  | SensVar.exitCapRate => a.exit_cap_rate
  | SensVar.rentGrowthRate => a.rent_growth
  | SensVar.interestRate => a.interest_rate
  | SensVar.vacancyRate => a.vacancy
  | SensVar.opexGrowthRate => a.opex_growth

/-- The test-parameter selection of the two-way loop (source lines
2025-2029): each of the five test values is the base value unless the
variable is one of the two tested ones, in which case it is `val1` or
`val2`. -/
def testVal (a : Assumptions) (var1 var2 : SensVar) (val1 val2 : ℚ) (v : SensVar) : ℚ :=
  if var1 ≠ v ∧ var2 ≠ v then baseVal a v
  else if var1 = v then val1 else val2

/-- One cell of the two-way sensitivity heat map for the Equity Multiple
metric (source lines 2022-2074): NOI grown from the precomputed
`year_1_noi` at the tested rent growth rate only, debt service taken from
year 1 and held constant (lines 2043-2049), terminal value from
`year_1_noi` and the tested exit cap, proceeds at the hard-coded 94%
factor minus the base-case remaining balance (line 2058), divided by the
base equity (line 2070). -/
def twoWayCellEM (a : Assumptions) (var1 var2 : SensVar) (val1 val2 : ℚ) : ℚ :=
  let test_rent_gr := testVal a var1 var2 val1 val2 SensVar.rentGrowthRate
  let test_vac := testVal a var1 var2 val1 val2 SensVar.vacancyRate
  let test_opex_gr := testVal a var1 var2 val1 val2 SensVar.opexGrowthRate
  let test_exit := testVal a var1 var2 val1 val2 SensVar.exitCapRate
  let test_int := testVal a var1 var2 val1 val2 SensVar.interestRate
  let capex_annual := capex_year a
  let temp_annual_ds :=
    if test_int ≠ a.interest_rate then
      if a.io_period < a.amortization then
        let test_monthly_rate := test_int / 100 / 12
        let remaining_payments := (a.amortization - a.io_period) * 12
        12 * loan_amount a * (test_monthly_rate * (1 + test_monthly_rate) ^ remaining_payments) /
          ((1 + test_monthly_rate) ^ remaining_payments - 1)
      else loan_amount a * test_int / 100
    else calculate_debt_service 1 (loan_amount a) test_int a.amortization a.io_period
  let temp_cf_sum :=
    ((List.range a.holding_period).map
      (fun i => year_1_noi a * (1 + test_rent_gr / 100) ^ i - capex_annual - temp_annual_ds)).sum
  let final_noi := year_1_noi a * (1 + test_rent_gr / 100) ^ a.holding_period
  let temp_sale := final_noi / (test_exit / 100)
  let temp_proceeds := temp_sale * (94 / 100) - remaining_balance a
  (temp_cf_sum + temp_proceeds) / equity_required a

/-- One point of the one-way sensitivity curve for the Equity Multiple
metric (source lines 2175-2222).  The loop binds `test_vac` and
`test_opex_gr` from the test value (lines 2181-2182) but the subsequent
computation never reads them: NOI values are grown from the precomputed
base `year_1_noi` at `test_rent_gr` only (line 2188), debt service is the
year-1 value at `test_int` (line 2199), and the sale uses `test_exit`
with the hard-coded 94% factor (lines 2205-2207). -/
def oneWayEM (a : Assumptions) (test_var : SensVar) (test_val : ℚ) : ℚ :=
  let test_rent_gr := if test_var ≠ SensVar.rentGrowthRate then a.rent_growth else test_val
  let test_vac := if test_var ≠ SensVar.vacancyRate then a.vacancy else test_val
  let test_opex_gr := if test_var ≠ SensVar.opexGrowthRate then a.opex_growth else test_val
  let test_exit := if test_var ≠ SensVar.exitCapRate then a.exit_cap_rate else test_val
  let test_int := if test_var ≠ SensVar.interestRate then a.interest_rate else test_val
  let capex_annual := capex_year a
  let temp_annual_ds := calculate_debt_service 1 (loan_amount a) test_int a.amortization a.io_period
  let temp_cf_sum :=
    ((List.range a.holding_period).map
      (fun i => year_1_noi a * (1 + test_rent_gr / 100) ^ i - capex_annual - temp_annual_ds)).sum
  let final_noi := year_1_noi a * (1 + test_rent_gr / 100) ^ a.holding_period
  let temp_sale := final_noi / (test_exit / 100)
  let temp_proceeds := temp_sale * (94 / 100) - remaining_balance a
  (temp_cf_sum + temp_proceeds) / equity_required a

/-! ## Recommendation generator (`generate_recommendation`, source lines 618-706)

The strengths/risks lists are built from the score breakdown (an ordered
association of category name to `{score, max}`; Python dicts preserve
insertion order) followed by absolute-metric flags, then truncated to the
first 4 entries (lines 657 and 673).  Entries are modelled by their
origin rather than their display string. -/

/-- An entry of the strengths or risks list: a category flag (identified
by its position in the breakdown) or one of the absolute-metric flags. -/
inductive RecEntry where
  | cat (idx : ℕ)
  | irrStrength
  | npvStrength
  | emStrength
  | irrRisk
  | npvRisk
  | holdRisk
deriving DecidableEq, Repr

/-- The category strength flags (source lines 644-648): walk the
breakdown in order, flagging every category whose score is at least 80%
of its cap; `i` is the position of the first entry. -/
def catStrengthFlags (breakdown : List (ℚ × ℚ)) (i : ℕ) : List RecEntry :=
  match breakdown with
  | [] => []
  | p :: rest =>
      (if 80 ≤ p.1 / p.2 * 100 then [RecEntry.cat i] else []) ++ catStrengthFlags rest (i + 1)

/-- The category risk flags (source lines 660-664): every category whose
score is below 50% of its cap. -/
def catRiskFlags (breakdown : List (ℚ × ℚ)) (i : ℕ) : List RecEntry :=
  match breakdown with
  | [] => []
  | p :: rest =>
      (if p.1 / p.2 * 100 < 50 then [RecEntry.cat i] else []) ++ catRiskFlags rest (i + 1)

/-- The full strengths list before truncation (source lines 644-655):
category flags in breakdown order, then the IRR ≥ 15, NPV > 0 and
equity-multiple ≥ 2.5 flags. -/
def strengthList (breakdown : List (ℚ × ℚ)) (irr npv em : ℚ) : List RecEntry :=
  catStrengthFlags breakdown 0 ++
    (if 15 ≤ irr then [RecEntry.irrStrength] else []) ++
    (if 0 < npv then [RecEntry.npvStrength] else []) ++
    (if 5 / 2 ≤ em then [RecEntry.emStrength] else [])

/-- Source line 657: `recommendation['strengths'] = strengths[:4]`. -/
def strengthsReported (breakdown : List (ℚ × ℚ)) (irr npv em : ℚ) : List RecEntry :=
  (strengthList breakdown irr npv em).take 4

/-- The full risks list before truncation (source lines 660-671):
category flags in breakdown order, then the IRR < 10, NPV < 0 and
holding-period > 20 flags. -/
def riskList (breakdown : List (ℚ × ℚ)) (irr npv : ℚ) (holding : ℕ) : List RecEntry :=
  catRiskFlags breakdown 0 ++
    (if irr < 10 then [RecEntry.irrRisk] else []) ++
    (if npv < 0 then [RecEntry.npvRisk] else []) ++
    (if 20 < holding then [RecEntry.holdRisk] else [])

/-- Source line 673: `recommendation['risks'] = risks[:4]`. -/
def risksReported (breakdown : List (ℚ × ℚ)) (irr npv : ℚ) (holding : ℕ) : List RecEntry :=
  (riskList breakdown irr npv holding).take 4

/-! ## Concrete assumption sets used by witnesses and counterexamples -/

/-- The example scenario of the spec (§8): Multifamily, 5 units at $1500
per month, purchase price $1,000,000, closing costs $20,000, LTV 70%,
interest 6.5%, amortization 30 years, no IO, holding 10 years, exit cap
5.5%, rent growth 3%, vacancy 5%, opex $6000 per unit growing 3%, capex
$300 per unit flat, management fee 4%, discount rate 12%. -/
def exampleDeal : Assumptions where
  property_type := PropertyType.multifamily
  units_or_sf := 5
  unit_rents := [1500, 1500, 1500, 1500, 1500]
  annual_rent_total := 90000
  purchase_price := 1000000
  closing_costs := 20000
  rent_growth := 3
  vacancy := 5
  opex_per_unit_or_sf := 6000
  opex_growth := 3
  capex_per_unit_or_sf := 300
  management_fee := 4
  loan_to_value := 70
  interest_rate := 13 / 2
  amortization := 30
  io_period := 0
  holding_period := 10
  exit_cap_rate := 11 / 2
  selling_costs := 2
  discount_rate := 12

/-- A small all-cash deal (LTV 0, so no loan): Multifamily, one unit at
$1000 per month, purchase price $100,000, no closing costs, flat rents
and expenses, vacancy 5%, opex $1000, capex $100, no management fee,
2-year hold, exit cap 10%, selling costs at the 2% default. -/
def smallDeal : Assumptions where
  property_type := PropertyType.multifamily
  units_or_sf := 1
  unit_rents := [1000]
  annual_rent_total := 12000
  purchase_price := 100000
  closing_costs := 0
  rent_growth := 0
  vacancy := 5
  opex_per_unit_or_sf := 1000
  opex_growth := 0
  capex_per_unit_or_sf := 100
  management_fee := 0
  loan_to_value := 0
  interest_rate := 0
  amortization := 30
  io_period := 0
  holding_period := 2
  exit_cap_rate := 10
  selling_costs := 2
  discount_rate := 12

/-- The example scenario with the exit cap rate set to 0 (the slider of
source line 1070 allows 0.0). -/
def zeroCapDeal : Assumptions := { exampleDeal with exit_cap_rate := 0 }

/-- A degenerate accepted input with zero equity: purchase price 0 and
closing costs 0 (both number inputs allow 0, source lines 947-955). -/
def zeroEquityDeal : Assumptions := { smallDeal with purchase_price := 0 }

/-! ## Claims -/

/-- C1 (counterexample): with `exit_cap_rate = 0` the code returns a sale
price of 0 (source line 1268 is a conditional expression, not a raise;
no DomainError exists anywhere in the source), contradicting the claim
that the computation fails rather than returning 0. -/
theorem claim_C1_cex : zeroCapDeal.exit_cap_rate ≤ 0 ∧ sale_price zeroCapDeal = 0 := by
  constructor
  · norm_num [zeroCapDeal, exampleDeal]
  · simp [sale_price, zeroCapDeal, exampleDeal]

/-- C1 (amended): the terminal sale price is 0 when `exit_cap_rate ≤ 0`
(no error is raised), and for `exit_cap_rate > 0` it satisfies
`sale_price × (exit_cap_rate/100) = final_year_NOI × (1 + rent_growth_rate)`,
i.e. equals the claimed quotient. -/
theorem claim_C1 (a : Assumptions) :
    (a.exit_cap_rate ≤ 0 → sale_price a = 0) ∧
    (0 < a.exit_cap_rate →
      sale_price a * (a.exit_cap_rate / 100) =
        noi_year a a.holding_period * (1 + a.rent_growth / 100)) := by
  constructor
  · intro h
    rw [sale_price, if_neg (not_lt.mpr h)]
  · intro h
    rw [sale_price, if_pos h, terminal_noi]
    field_simp

/-- C1 (witness): the amended statement evaluated on the example deal and
on its zero-exit-cap variant. -/
theorem claim_C1_witness :
    (zeroCapDeal.exit_cap_rate ≤ 0 ∧ sale_price zeroCapDeal = 0) ∧
    (0 < exampleDeal.exit_cap_rate ∧
      sale_price exampleDeal * (exampleDeal.exit_cap_rate / 100) =
        noi_year exampleDeal exampleDeal.holding_period *
          (1 + exampleDeal.rent_growth / 100)) :=
  ⟨⟨by norm_num [zeroCapDeal, exampleDeal],
    (claim_C1 zeroCapDeal).1 (by norm_num [zeroCapDeal, exampleDeal])⟩,
   ⟨by norm_num [exampleDeal], (claim_C1 exampleDeal).2 (by norm_num [exampleDeal])⟩⟩

/-- C2: for `interest_only_years ≥ amortization_years` with a positive
principal, the code keeps the running balance of the cash-flow loop at
the principal and charges no debt service after the IO period — but the
closed-form `calc_remaining_balance` used by the terminal analysis
returns 0 for any holding period past the IO period (its
`remaining_pmts <= 0` branch, source lines 1276-1278), contradicting both
the claim and the loop it must be consistent with.  Concrete failing
input: principal 100000, rate 6%, amortization 5, IO 5, holding 7. -/
theorem claim_C2 :
    calc_remaining_balance 100000 6 5 5 7 = 0 ∧
    loanBalanceAfterYear 100000 6 5 5 7 = 100000 ∧
    calculate_debt_service 6 100000 6 5 5 = 0 ∧
    calculate_debt_service 7 100000 6 5 5 = 0 := by
  refine ⟨?_, ?_, ?_, ?_⟩ <;>
    norm_num [calc_remaining_balance, loanBalanceAfterYear, calculate_debt_service]

/-- C3 (counterexample): on the spec's example scenario the engine's
required equity is $320,000, not the claimed $306,000: the loan is 70% of
the purchase price alone (source line 1097), not of the $1,020,000 total
acquisition cost. -/
theorem claim_C3_cex : equity_required exampleDeal = 320000 ∧ (320000 : ℚ) ≠ 306000 := by
  norm_num [equity_required, total_acquisition, loan_amount, exampleDeal]

/-- C3 (amended): on the example scenario the year-1 row of the
projection has gross income $90,000, EGI $85,500, opex $30,000,
management fee $3,420 and NOI $52,080, and the required equity is
$320,000 (the $1,020,000 total acquisition cost minus the $700,000
loan). -/
theorem claim_C3 :
    gri_year exampleDeal 1 = 90000 ∧
    egi_year exampleDeal 1 = 85500 ∧
    opex_year exampleDeal 1 = 30000 ∧
    mgmt_year exampleDeal 1 = 3420 ∧
    noi_year exampleDeal 1 = 52080 ∧
    total_acquisition exampleDeal = 1020000 ∧
    loan_amount exampleDeal = 700000 ∧
    equity_required exampleDeal = 320000 := by
  refine ⟨?_, ?_, ?_, ?_, ?_, ?_, ?_, ?_⟩ <;>
    norm_num [gri_year, egi_year, opex_year, mgmt_year, noi_year, total_acquisition,
      loan_amount, equity_required, exampleDeal]

/-- C4 (counterexample): with zero required equity the code returns an
equity multiple of 0 (the guard of source line 1295), not a DomainError. -/
theorem claim_C4_cex :
    equity_required zeroEquityDeal = 0 ∧ equity_multiple zeroEquityDeal = 0 := by
  constructor
  · norm_num [equity_required, total_acquisition, loan_amount, zeroEquityDeal, smallDeal]
  · simp [equity_multiple, equity_required, total_acquisition, loan_amount,
      zeroEquityDeal, smallDeal]

/-- C4 (amended): the equity multiple is 0 when `equity_required ≤ 0`
(no error is raised), and for `equity_required > 0` it satisfies
`equity_multiple × equity_required = Σ yearly cash flows + net sale
proceeds`, i.e. equals the claimed quotient. -/
theorem claim_C4 (a : Assumptions) :
    (equity_required a ≤ 0 → equity_multiple a = 0) ∧
    (0 < equity_required a →
      equity_multiple a * equity_required a = btcf_sum a + net_sale_proceeds a) := by
  constructor
  · intro h
    rw [equity_multiple, if_neg (not_lt.mpr h)]
  · intro h
    rw [equity_multiple, if_pos h, div_mul_cancel₀]
    exact ne_of_gt h

/-- C4 (witness): the amended statement evaluated on the zero-equity deal
and on the small all-cash deal. -/
theorem claim_C4_witness :
    (equity_required zeroEquityDeal ≤ 0 ∧ equity_multiple zeroEquityDeal = 0) ∧
    (0 < equity_required smallDeal ∧
      equity_multiple smallDeal * equity_required smallDeal =
        btcf_sum smallDeal + net_sale_proceeds smallDeal) :=
  ⟨⟨by norm_num [equity_required, total_acquisition, loan_amount, zeroEquityDeal, smallDeal],
    (claim_C4 zeroEquityDeal).1
      (by norm_num [equity_required, total_acquisition, loan_amount, zeroEquityDeal, smallDeal])⟩,
   ⟨by norm_num [equity_required, total_acquisition, loan_amount, smallDeal],
    (claim_C4 smallDeal).2
      (by norm_num [equity_required, total_acquisition, loan_amount, smallDeal])⟩⟩

/-- C5: the one-way sensitivity loop binds the perturbed vacancy rate and
OpEx growth rate (source lines 2181-2182) but never uses them, so the
reported metric is the same for every test value of those variables —
while the actual projection/returns pipeline produces different metrics
for different vacancy rates (and OpEx growth rates).  The first two
conjuncts show the reported value is constant in the test value for every
assumption set; the last two exhibit base assumptions whose pipeline
equity multiple does change. -/
theorem claim_C5 :
    (∀ (a : Assumptions) (v w : ℚ),
      oneWayEM a SensVar.vacancyRate v = oneWayEM a SensVar.vacancyRate w) ∧
    (∀ (a : Assumptions) (v w : ℚ),
      oneWayEM a SensVar.opexGrowthRate v = oneWayEM a SensVar.opexGrowthRate w) ∧
    equity_multiple { smallDeal with vacancy := 1 } ≠
      equity_multiple { smallDeal with vacancy := 9 } ∧
    equity_multiple smallDeal ≠ equity_multiple { smallDeal with opex_growth := 5 } := by
  refine ⟨fun a v w => rfl, fun a v w => rfl, ?_, ?_⟩ <;>
    norm_num [equity_multiple, equity_required, total_acquisition, loan_amount, btcf_sum,
      btcf_year, noi_year, egi_year, gri_year, opex_year, mgmt_year, capex_year,
      net_sale_proceeds, sale_price, sale_costs, terminal_noi, remaining_balance,
      calc_remaining_balance, calculate_debt_service, List.range_succ, smallDeal]

/-- C10 (counterexample): at interest rate 0 (the slider of source line
1049 allows 0.0) with a positive loan and an amortizing phase, the
annuity denominator `(1 + monthly_rate) ^ remaining_payments - 1` of
`calculate_debt_service` is `1 ^ 360 - 1 = 0` and the division is
executed: the Python code raises ZeroDivisionError, refuting the claim
that the error branch is unreachable. -/
theorem claim_C10_cex :
    calculate_debt_serviceE 1 100000 0 30 0 = none ∧
    calc_remaining_balanceE 100000 0 30 0 1 = none := by
  constructor <;> norm_num [calculate_debt_serviceE, calc_remaining_balanceE]

/-- C10 (amended): the debt-service and remaining-balance computations
are NOT total at zero interest: for `interest_rate = 0`, a nonzero loan
and an amortizing phase, both functions execute a division by zero (the
annuity denominator vanishes), while for `interest_rate > 0` the
debt-service computation never does. -/
theorem claim_C10 (loan ir : ℚ) (amort io year holding : ℕ) :
    (ir = 0 → loan ≠ 0 → io < year → io < amort →
      calculate_debt_serviceE year loan ir amort io = none) ∧
    (ir = 0 → loan ≠ 0 → io < holding → holding < amort →
      calc_remaining_balanceE loan ir amort io holding = none) ∧
    (0 < ir → calculate_debt_serviceE year loan ir amort io ≠ none) := by
  refine ⟨?_, ?_, ?_⟩
  · intro h0 hl hy ha
    subst h0
    have h1 : ¬ (year ≤ io ∨ loan = 0) := by push_neg; exact ⟨hy, hl⟩
    have hrem : ¬ ((amort : ℤ) - (io : ℤ)) * 12 ≤ 0 := by omega
    simp only [calculate_debt_serviceE, if_neg h1, if_neg hrem]
    norm_num
  · intro h0 hl hy ha
    subst h0
    have h1 : ¬ (holding ≤ io ∨ loan = 0) := by push_neg; exact ⟨hy, hl⟩
    have hrem : ¬ ((amort : ℤ) - (holding : ℤ)) * 12 ≤ 0 := by omega
    simp only [calc_remaining_balanceE, if_neg h1, if_neg hrem]
    norm_num
  · intro hir
    by_cases h1 : year ≤ io ∨ loan = 0
    · simp only [calculate_debt_serviceE, if_pos h1]
      exact Option.some_ne_none _
    · by_cases h2 : ((amort : ℤ) - (io : ℤ)) * 12 ≤ 0
      · simp only [calculate_debt_serviceE, if_neg h1, if_pos h2]
        exact Option.some_ne_none _
      · have hk : (((amort : ℤ) - (io : ℤ)) * 12).toNat ≠ 0 := by omega
        have hmr : (0 : ℚ) < ir / 100 / 12 := by positivity
        have hpow : (1 : ℚ) < (1 + ir / 100 / 12) ^ (((amort : ℤ) - (io : ℤ)) * 12).toNat :=
          one_lt_pow₀ (by linarith) hk
        have hden : ¬ ((1 + ir / 100 / 12) ^ (((amort : ℤ) - (io : ℤ)) * 12).toNat - 1 = (0 : ℚ)) :=
          fun hd => ne_of_gt hpow (sub_eq_zero.mp hd)
        simp only [calculate_debt_serviceE, if_neg h1, if_neg h2, if_neg hden]
        exact Option.some_ne_none _

/-- C10 (witness): the amended statement evaluated at a 30-year loan of
100000 with no IO period, at interest rates 0 and 6.5. -/
theorem claim_C10_witness :
    (calculate_debt_serviceE 1 100000 0 30 0 = none ∧
      calc_remaining_balanceE 100000 0 30 0 1 = none) ∧
    calculate_debt_serviceE 1 100000 (13 / 2) 30 0 ≠ none :=
  ⟨⟨(claim_C10 100000 0 30 0 1 1).1 rfl (by norm_num) (by norm_num) (by norm_num),
    (claim_C10 100000 0 30 0 1 1).2.1 rfl (by norm_num) (by norm_num) (by norm_num)⟩,
   (claim_C10 100000 (13 / 2) 30 0 1 1).2.2 (by norm_num)⟩

/-! ## Annuity algebra: the monthly iteration in closed form -/

/-- The monthly interest/principal iteration in closed form: after `k`
months at fixed payment `pmt` and monthly rate `mr`, the balance is
`b₀ (1+mr)^k - pmt ((1+mr)^k - 1) / mr`. -/
theorem balanceIter_closed (pmt mr b0 : ℚ) (hmr : mr ≠ 0) (k : ℕ) :
    balanceIter pmt mr b0 k = b0 * (1 + mr) ^ k - pmt * ((1 + mr) ^ k - 1) / mr := by
  induction k with
  | zero => simp [balanceIter]
  | succ n ih =>
      simp only [balanceIter, ih]
      field_simp
      ring

/-- Iterating the monthly split at the annuity payment for a loan of
`n` scheduled months: after `m` months the balance is
`loan ((1+mr)^n - (1+mr)^m) / ((1+mr)^n - 1)`. -/
theorem balanceIter_annuity (loan mr : ℚ) (n m : ℕ) (hmr : 0 < mr) (hn : n ≠ 0) :
    balanceIter (loan * (mr * (1 + mr) ^ n) / ((1 + mr) ^ n - 1)) mr loan m =
      loan * ((1 + mr) ^ n - (1 + mr) ^ m) / ((1 + mr) ^ n - 1) := by
  have hxn : (1 : ℚ) < (1 + mr) ^ n := one_lt_pow₀ (by linarith) hn
  have hne : (1 + mr) ^ n - 1 ≠ 0 := sub_ne_zero.mpr (ne_of_gt hxn)
  rw [balanceIter_closed _ _ _ (ne_of_gt hmr)]
  field_simp
  ring

/-- The annuity present-value identity: the balance left after `m` of `n`
scheduled months equals the present value of the `n - m` remaining
payments. -/
theorem annuity_tail (loan mr : ℚ) (n m : ℕ) (hmr : 0 < mr) (hn : n ≠ 0) (hmn : m ≤ n) :
    loan * ((1 + mr) ^ n - (1 + mr) ^ m) / ((1 + mr) ^ n - 1) =
      loan * (mr * (1 + mr) ^ n) / ((1 + mr) ^ n - 1) * ((1 + mr) ^ (n - m) - 1) /
        (mr * (1 + mr) ^ (n - m)) := by
  have hx : (0 : ℚ) < 1 + mr := by linarith
  have hxn : (1 : ℚ) < (1 + mr) ^ n := one_lt_pow₀ (by linarith) hn
  have hne : (1 + mr) ^ n - 1 ≠ 0 := sub_ne_zero.mpr (ne_of_gt hxn)
  have hsplit : (1 + mr) ^ n = (1 + mr) ^ m * (1 + mr) ^ (n - m) := by
    rw [← pow_add]
    congr 1
    omega
  have hm : ((1 + mr) ^ m : ℚ) ≠ 0 := ne_of_gt (pow_pos hx m)
  have htail : ((1 + mr) ^ (n - m) : ℚ) ≠ 0 := ne_of_gt (pow_pos hx (n - m))
  rw [hsplit] at hne ⊢
  field_simp
  ring

/-- Normalisation of `loanBalanceAfterYear` on the amortizing branch:
for a nonzero loan, positive rate, an amortizing phase and a year past
the IO period the code is the monthly iteration at the annuity payment. -/
theorem loanBalanceAfterYear_eq_iter (loan ir : ℚ) (amort io year : ℕ)
    (hl : loan ≠ 0) (hir : 0 < ir) (hio : io < amort) (hy : io < year) :
    loanBalanceAfterYear loan ir amort io year =
      balanceIter
        (loan * ((ir / 100 / 12) * (1 + ir / 100 / 12) ^ ((amort - io) * 12)) /
          ((1 + ir / 100 / 12) ^ ((amort - io) * 12) - 1))
        (ir / 100 / 12) loan (12 * (year - io)) := by
  rw [loanBalanceAfterYear, if_neg hl, if_neg (not_le.mpr hy), if_pos hio, if_pos hir]

/-- C7 (counterexample): holding for 2 years a loan that fully amortizes
in 1 year, the running balance of the cash-flow loop goes strictly
negative (the loop keeps amortizing every year with no stopping
condition, source lines 1205-1217): principal 1200 at 12% with a 1-year
amortization is negative after year 2. -/
theorem claim_C7_cex : loanBalanceAfterYear 1200 12 1 0 2 < 0 := by
  rw [loanBalanceAfterYear_eq_iter 1200 12 1 0 2 (by norm_num) (by norm_num)
    (by norm_num) (by norm_num)]
  rw [balanceIter_annuity 1200 (12 / 100 / 12) ((1 - 0) * 12) (12 * (2 - 0))
    (by norm_num) (by norm_num)]
  norm_num

/-- C7 (amended): for a positive loan, positive rate and an amortizing
phase, the running loan balance of the cash-flow loop is unchanged during
the interest-only years, is monotonically non-increasing from year to
year once amortization begins, and is non-negative for every year up to
the amortization horizon.  (Past the amortization horizon it goes
negative — see the counterexample — so the unrestricted non-negativity of
the claim fails.) -/
theorem claim_C7 (loan ir : ℚ) (amort io : ℕ)
    (hl : 0 < loan) (hir : 0 < ir) (hio : io < amort) :
    (∀ year, year ≤ io → loanBalanceAfterYear loan ir amort io year = loan) ∧
    (∀ year, loanBalanceAfterYear loan ir amort io (year + 1) ≤
      loanBalanceAfterYear loan ir amort io year) ∧
    (∀ year, year ≤ amort → 0 ≤ loanBalanceAfterYear loan ir amort io year) := by
  have hl0 : loan ≠ 0 := ne_of_gt hl
  set mr : ℚ := ir / 100 / 12 with hmrdef
  have hmr : 0 < mr := by positivity
  set n : ℕ := (amort - io) * 12 with hndef
  have hn : n ≠ 0 := by omega
  have hx : (1 : ℚ) < 1 + mr := by linarith
  have hxn : (1 : ℚ) < (1 + mr) ^ n := one_lt_pow₀ hx hn
  have hden : (0 : ℚ) < (1 + mr) ^ n - 1 := by linarith
  set pmt : ℚ := loan * (mr * (1 + mr) ^ n) / ((1 + mr) ^ n - 1) with hpmtdef
  have hpmt : loan * mr < pmt := by
    rw [hpmtdef, lt_div_iff₀ hden]
    have hlm : 0 < loan * mr := mul_pos hl hmr
    nlinarith
  have step_le : ∀ b : ℚ, b ≤ loan → b - (pmt - b * mr) ≤ b := by
    intro b hb
    have : b * mr ≤ loan * mr := mul_le_mul_of_nonneg_right hb (le_of_lt hmr)
    linarith
  have iter_le : ∀ k, balanceIter pmt mr loan k ≤ loan := by
    intro k
    induction k with
    | zero => simp [balanceIter]
    | succ j ih =>
        simp only [balanceIter]
        exact le_trans (step_le _ ih) ih
  have iter_mono : ∀ k, balanceIter pmt mr loan (k + 1) ≤ balanceIter pmt mr loan k := by
    intro k
    simp only [balanceIter]
    exact step_le _ (iter_le k)
  have iter_mono_add : ∀ k j, balanceIter pmt mr loan (k + j) ≤ balanceIter pmt mr loan k := by
    intro k j
    induction j with
    | zero => exact le_refl _
    | succ i ih => exact le_trans (iter_mono (k + i)) ih
  refine ⟨?_, ?_, ?_⟩
  · intro year hy
    rw [loanBalanceAfterYear, if_neg hl0, if_pos hy]
  · intro year
    by_cases hy1 : year + 1 ≤ io
    · rw [loanBalanceAfterYear, if_neg hl0, if_pos hy1,
        loanBalanceAfterYear, if_neg hl0, if_pos (by omega : year ≤ io)]
    · by_cases hy0 : year ≤ io
      · rw [loanBalanceAfterYear, if_neg hl0, if_neg hy1, if_pos hio, if_pos hir,
          loanBalanceAfterYear, if_neg hl0, if_pos hy0]
        exact iter_le _
      · rw [loanBalanceAfterYear_eq_iter loan ir amort io (year + 1) hl0 hir hio (by omega),
          loanBalanceAfterYear_eq_iter loan ir amort io year hl0 hir hio (by omega)]
        have hm : 12 * (year + 1 - io) = 12 * (year - io) + 12 := by omega
        rw [hm]
        exact iter_mono_add _ 12
  · intro year hy
    by_cases hy0 : year ≤ io
    · rw [loanBalanceAfterYear, if_neg hl0, if_pos hy0]
      exact le_of_lt hl
    · rw [loanBalanceAfterYear_eq_iter loan ir amort io year hl0 hir hio (by omega)]
      rw [balanceIter_annuity loan mr n (12 * (year - io)) hmr hn]
      have hle : (1 + mr) ^ (12 * (year - io)) ≤ (1 + mr) ^ n := by
        apply pow_le_pow_right₀ (le_of_lt hx)
        omega
      apply div_nonneg _ (le_of_lt hden)
      have : (0 : ℚ) ≤ (1 + mr) ^ n - (1 + mr) ^ (12 * (year - io)) := by linarith
      exact mul_nonneg (le_of_lt hl) this

/-- C7 (witness): the amended statement evaluated on a loan of 1200 at
12% with a 2-year amortization and 1 IO year: the balance after the IO
year is the full principal. -/
theorem claim_C7_witness :
    (0 : ℚ) < 1200 ∧ loanBalanceAfterYear 1200 12 2 1 1 = 1200 :=
  ⟨by norm_num,
   (claim_C7 1200 12 2 1 (by norm_num) (by norm_num) (by norm_num)).1 1 (le_refl 1)⟩

/-- C8: for a positive loan and rate, an amortizing phase and a holding
period inside it, the closed-form remaining balance
(`calc_remaining_balance`, annuity present value) is exactly equal — in
exact rational arithmetic, hence a fortiori to within floating-point
tolerance — to the balance obtained by iterating the monthly
interest/principal split of the cash-flow loop through the holding
period. -/
theorem claim_C8 (loan ir : ℚ) (amort io holding : ℕ)
    (hl : 0 < loan) (hir : 0 < ir) (h1 : io < holding) (h2 : holding ≤ amort) :
    calc_remaining_balance loan ir amort io holding =
      loanBalanceAfterYear loan ir amort io holding := by
  have hio : io < amort := lt_of_lt_of_le h1 h2
  have hl0 : loan ≠ 0 := ne_of_gt hl
  have hmr : (0 : ℚ) < ir / 100 / 12 := by positivity
  have hn : (amort - io) * 12 ≠ 0 := by omega
  rw [loanBalanceAfterYear_eq_iter loan ir amort io holding hl0 hir hio h1,
    balanceIter_annuity loan (ir / 100 / 12) ((amort - io) * 12) (12 * (holding - io)) hmr hn]
  have hguard : ¬ (holding ≤ io ∨ loan = 0) := by push_neg; exact ⟨h1, hl0⟩
  rcases eq_or_lt_of_le h2 with heq | hlt
  · have hrem0 : ((amort : ℤ) - (holding : ℤ)) * 12 ≤ 0 := by omega
    simp only [calc_remaining_balance, if_neg hguard, if_pos hrem0]
    have e0 : 12 * (holding - io) = (amort - io) * 12 := by omega
    rw [e0]
    simp
  · have hrem : ¬ ((amort : ℤ) - (holding : ℤ)) * 12 ≤ 0 := by omega
    simp only [calc_remaining_balance, if_neg hguard, if_neg hrem]
    have e1 : (((amort : ℤ) - (io : ℤ)) * 12).toNat = (amort - io) * 12 := by omega
    have e2 : (((amort : ℤ) - (holding : ℤ)) * 12).toNat = (amort - holding) * 12 := by omega
    rw [e1, e2,
      annuity_tail loan (ir / 100 / 12) ((amort - io) * 12) (12 * (holding - io)) hmr hn
        (by omega)]
    have e3 : (amort - io) * 12 - 12 * (holding - io) = (amort - holding) * 12 := by omega
    rw [e3]

/-- C8 (witness): the equivalence evaluated on a loan of 1200 at 12% with
a 2-year amortization, no IO period and a 1-year hold. -/
theorem claim_C8_witness :
    (0 : ℚ) < 1200 ∧
      calc_remaining_balance 1200 12 2 0 1 = loanBalanceAfterYear 1200 12 2 0 1 :=
  ⟨by norm_num, claim_C8 1200 12 2 0 1 (by norm_num) (by norm_num) (by norm_num) (by norm_num)⟩

/-! ## Recommendation-list lemmas -/

/-- Every entry of the category strength flags is a category entry. -/
theorem catStrengthFlags_all_cat (breakdown : List (ℚ × ℚ)) (i : ℕ) :
    ∀ x ∈ catStrengthFlags breakdown i, ∃ j, x = RecEntry.cat j := by
  induction breakdown generalizing i with
  | nil => intro x hx; simp [catStrengthFlags] at hx
  | cons p rest ih =>
      intro x hx
      simp only [catStrengthFlags, List.mem_append] at hx
      rcases hx with hx | hx
      · by_cases hp : 80 ≤ p.1 / p.2 * 100
        · rw [if_pos hp] at hx
          simp at hx
          exact ⟨i, hx⟩
        · rw [if_neg hp] at hx
          simp at hx
      · exact ih (i + 1) x hx

/-- The number of category strength flags is the number of categories at
or above 80% of their cap. -/
theorem catStrengthFlags_length (breakdown : List (ℚ × ℚ)) (i : ℕ) :
    (catStrengthFlags breakdown i).length =
      breakdown.countP (fun p => decide (80 ≤ p.1 / p.2 * 100)) := by
  induction breakdown generalizing i with
  | nil => simp [catStrengthFlags]
  | cons p rest ih =>
      simp only [catStrengthFlags, List.length_append, ih, List.countP_cons]
      by_cases hp : 80 ≤ p.1 / p.2 * 100
      · simp [hp]
        omega
      · simp [hp]

/-- A category at or above 80% of its cap appears among the strength
flags. -/
theorem catStrengthFlags_mem (breakdown : List (ℚ × ℚ)) :
    ∀ (i j : ℕ) (p : ℚ × ℚ), breakdown.get? j = some p → 80 ≤ p.1 / p.2 * 100 →
      RecEntry.cat (i + j) ∈ catStrengthFlags breakdown i := by
  induction breakdown with
  | nil => intro i j p hj; simp at hj
  | cons q rest ih =>
      intro i j p hj hp
      cases j with
      | zero =>
          simp only [List.get?] at hj
          injection hj with hj
          subst hj
          simp only [catStrengthFlags, List.mem_append]
          left
          rw [if_pos hp]
          simp
      | succ k =>
          simp only [List.get?] at hj
          simp only [catStrengthFlags, List.mem_append]
          right
          have : RecEntry.cat (i + 1 + k) ∈ catStrengthFlags rest (i + 1) := ih (i + 1) k p hj hp
          have e : i + 1 + k = i + (k + 1) := by omega
          rwa [e] at this

/-- A category below 50% of its cap appears among the risk flags. -/
theorem catRiskFlags_mem (breakdown : List (ℚ × ℚ)) :
    ∀ (i j : ℕ) (p : ℚ × ℚ), breakdown.get? j = some p → p.1 / p.2 * 100 < 50 →
      RecEntry.cat (i + j) ∈ catRiskFlags breakdown i := by
  induction breakdown with
  | nil => intro i j p hj; simp at hj
  | cons q rest ih =>
      intro i j p hj hp
      cases j with
      | zero =>
          simp only [List.get?] at hj
          injection hj with hj
          subst hj
          simp only [catRiskFlags, List.mem_append]
          left
          rw [if_pos hp]
          simp
      | succ k =>
          simp only [List.get?] at hj
          simp only [catRiskFlags, List.mem_append]
          right
          have : RecEntry.cat (i + 1 + k) ∈ catRiskFlags rest (i + 1) := ih (i + 1) k p hj hp
          have e : i + 1 + k = i + (k + 1) := by omega
          rwa [e] at this

/-- Membership of a distinguished element in a truncated list: if `x`
does not occur in the prefix `xs`, then `x` survives `take n` of
`xs ++ x :: ys` exactly when the prefix is shorter than `n`. -/
theorem mem_take_append_iff {x : RecEntry} (xs ys : List RecEntry) (hx : x ∉ xs) (n : ℕ) :
    x ∈ (xs ++ x :: ys).take n ↔ xs.length < n := by
  induction xs generalizing n with
  | nil =>
      cases n with
      | zero => simp
      | succ k => simp
  | cons a t ih =>
      have hxa : x ≠ a := fun h => hx (h ▸ List.mem_cons_self a t)
      have hxt : x ∉ t := fun h => hx (List.mem_cons_of_mem a h)
      cases n with
      | zero => simp
      | succ k =>
          simp only [List.cons_append, List.take_succ_cons, List.mem_cons, List.length_cons]
          rw [ih hxt k]
          constructor
          · rintro (h | h)
            · exact absurd h hxa
            · omega
          · intro h
            right
            omega

/-- C9 (counterexample): with all five categories at 100% of their caps
(hence five category strengths flagged) and IRR 20 ≥ 15, the returned
strengths list `strengths[:4]` (source line 657) consists of the first
four category entries only — the IRR strength entry is truncated away,
refuting the claim that it is always listed. -/
theorem claim_C9_cex :
    RecEntry.irrStrength ∉
      strengthsReported
        [((30 : ℚ), 30), ((20 : ℚ), 20), ((20 : ℚ), 20), ((15 : ℚ), 15), ((15 : ℚ), 15)]
        20 1 3 := by
  norm_num [strengthsReported, strengthList, catStrengthFlags]
  decide

/-- C9 (amended): a category at or above 80% of its cap is flagged in the
strengths list and one below 50% of its cap is flagged in the risks list
(before truncation), and when IRR ≥ 15 the IRR strength entry appears in
the RETURNED strengths list if and only if fewer than four categories
score at or above 80% of their caps — the returned list keeps only the
first four entries, and the category flags precede the IRR flag. -/
theorem claim_C9 (breakdown : List (ℚ × ℚ)) (irr npv em : ℚ) (holding : ℕ)
    (h15 : 15 ≤ irr) :
    (∀ (j : ℕ) (p : ℚ × ℚ), breakdown.get? j = some p → 80 ≤ p.1 / p.2 * 100 →
      RecEntry.cat j ∈ strengthList breakdown irr npv em) ∧
    (∀ (j : ℕ) (p : ℚ × ℚ), breakdown.get? j = some p → p.1 / p.2 * 100 < 50 →
      RecEntry.cat j ∈ riskList breakdown irr npv holding) ∧
    (RecEntry.irrStrength ∈ strengthsReported breakdown irr npv em ↔
      breakdown.countP (fun p => decide (80 ≤ p.1 / p.2 * 100)) < 4) := by
  refine ⟨?_, ?_, ?_⟩
  · intro j p hj hp
    have h := catStrengthFlags_mem breakdown 0 j p hj hp
    rw [Nat.zero_add] at h
    exact List.mem_append_left _ (List.mem_append_left _ (List.mem_append_left _ h))
  · intro j p hj hp
    have h := catRiskFlags_mem breakdown 0 j p hj hp
    rw [Nat.zero_add] at h
    exact List.mem_append_left _ (List.mem_append_left _ (List.mem_append_left _ h))
  · have hnot : RecEntry.irrStrength ∉ catStrengthFlags breakdown 0 := by
      intro h
      obtain ⟨j, hj⟩ := catStrengthFlags_all_cat breakdown 0 _ h
      exact absurd hj (by simp)
    unfold strengthsReported strengthList
    rw [if_pos h15, List.append_assoc, List.append_assoc, List.singleton_append,
      mem_take_append_iff _ _ hnot 4, catStrengthFlags_length]

/-- C9 (witness): with one of two categories at 80%+ and IRR 20, the IRR
strength entry does appear in the returned list. -/
theorem claim_C9_witness :
    (15 : ℚ) ≤ 20 ∧
      RecEntry.irrStrength ∈ strengthsReported [((30 : ℚ), 30), ((10 : ℚ), 20)] 20 1 3 :=
  ⟨by norm_num,
   ((claim_C9 [((30 : ℚ), 30), ((10 : ℚ), 20)] 20 1 3 0 (by norm_num)).2.2).mpr
     (by norm_num [List.countP_cons, List.countP_nil])⟩

/-! ## Lemmas for the two-way base cell -/

/-- Summing a list scaled by a constant. -/
theorem sum_map_mul_const (l : List ℚ) (c : ℚ) :
    (l.map (fun r => r * c)).sum = l.sum * c := by
  induction l with
  | nil => simp
  | cons a t ih => simp [ih, add_mul]

/-- When both tested values are the base values, every test parameter of
the two-way loop is the base value. -/
theorem testVal_base (a : Assumptions) (var1 var2 v : SensVar) :
    testVal a var1 var2 (baseVal a var1) (baseVal a var2) v = baseVal a v := by
  unfold testVal
  by_cases h1 : var1 = v
  · subst h1
    simp
  · by_cases h2 : var2 = v
    · subst h2
      simp [h1]
    · simp [h1, h2]

/-- `calculate_debt_service` of a zero loan is 0 for every year. -/
theorem calculate_debt_service_zero_loan (year : ℕ) (ir : ℚ) (amort io : ℕ) :
    calculate_debt_service year 0 ir amort io = 0 := by
  rw [calculate_debt_service, if_pos (Or.inr rfl)]
  ring

/-- `calc_remaining_balance` of a zero loan is 0. -/
theorem calc_remaining_balance_zero_loan (ir : ℚ) (amort io holding : ℕ) :
    calc_remaining_balance 0 ir amort io holding = 0 := by
  rw [calc_remaining_balance, if_pos (Or.inr rfl)]

/-- When the OpEx growth rate equals the rent growth rate, the per-year
NOI of the projection is the year-1 NOI compounded at the rent growth
rate (for well-formed inputs). -/
theorem noi_year_growth (a : Assumptions) (hwf : WF a)
    (hog : a.opex_growth = a.rent_growth) (y : ℕ) :
    noi_year a y = year_1_noi a * (1 + a.rent_growth / 100) ^ (y - 1) := by
  obtain ⟨pt, units, rents, annual, pp, cc, rg, vac, opx, og, cpx, mf, ltv, ir, am, iop,
    hp, ec, sc, dr⟩ := a
  simp only at hog
  subst hog
  cases pt <;>
    simp only [WF] at hwf <;>
    simp only [noi_year, egi_year, gri_year, opex_year, mgmt_year, year_1_noi, year_1_egi,
      year_1_gri, year_1_opex, year_1_mgmt] <;>
    first
      | (rw [sum_map_mul_const, hwf]; ring)
      | ring

/-- C6 (counterexample): on the small all-cash deal (selling costs at the
2% default) the two-way sensitivity cell with both tested variables at
their base values (vacancy 5, OpEx growth 0) does not equal the main
engine's equity multiple: the cell nets the sale at the hard-coded 94%
(6% selling costs) while the main engine uses the configured 2%. -/
theorem claim_C6_cex :
    twoWayCellEM smallDeal SensVar.vacancyRate SensVar.opexGrowthRate 5 0 ≠
      equity_multiple smallDeal := by
  have hbase : twoWayCellEM smallDeal SensVar.vacancyRate SensVar.opexGrowthRate 5 0 =
      twoWayCellEM smallDeal SensVar.vacancyRate SensVar.opexGrowthRate
        (baseVal smallDeal SensVar.vacancyRate) (baseVal smallDeal SensVar.opexGrowthRate) :=
    rfl
  rw [hbase]
  simp only [twoWayCellEM, testVal_base]
  simp only [baseVal]
  norm_num [equity_multiple, equity_required, total_acquisition, loan_amount, btcf_sum,
    btcf_year, noi_year, egi_year, gri_year, opex_year, mgmt_year, capex_year, year_1_noi,
    year_1_egi, year_1_gri, year_1_opex, year_1_mgmt, net_sale_proceeds, sale_price,
    sale_costs, terminal_noi, remaining_balance, calc_remaining_balance,
    calculate_debt_service, List.range_succ, smallDeal]

/-- C6 (amended): the base cell of the two-way sensitivity grid does NOT
reuse the main engine's per-year rules; even on inputs where its
simplified per-year cash flows coincide with the engine's (no loan, OpEx
growth equal to rent growth), the cell's metric differs from the main
equity multiple by exactly `sale_price × (selling_costs − 6)/100 /
equity_required`, because the cell nets the sale at a hard-coded 94%
factor instead of the configured selling-cost rate — the two agree only
when the configured rate is 6%. -/
theorem claim_C6 (a : Assumptions) (var1 var2 : SensVar)
    (hwf : WF a) (hltv : a.loan_to_value = 0) (hog : a.opex_growth = a.rent_growth)
    (hhold : 1 ≤ a.holding_period) (hexit : 0 < a.exit_cap_rate)
    (heq : 0 < equity_required a) :
    twoWayCellEM a var1 var2 (baseVal a var1) (baseVal a var2) - equity_multiple a =
      sale_price a * ((a.selling_costs - 6) / 100) / equity_required a := by
  have hloan : loan_amount a = 0 := by rw [loan_amount, hltv]; ring
  have hrb : remaining_balance a = 0 := by
    rw [remaining_balance, hloan, calc_remaining_balance_zero_loan]
  have hds : ∀ y : ℕ,
      calculate_debt_service y (loan_amount a) a.interest_rate a.amortization a.io_period
        = 0 := by
    intro y
    rw [hloan, calculate_debt_service_zero_loan]
  have hx1 : a.holding_period - 1 + 1 = a.holding_period := by omega
  have hpow : (1 + a.rent_growth / 100) ^ (a.holding_period - 1) * (1 + a.rent_growth / 100)
      = (1 + a.rent_growth / 100) ^ a.holding_period := by
    rw [← pow_succ, hx1]
  have hsale : sale_price a =
      year_1_noi a * (1 + a.rent_growth / 100) ^ a.holding_period /
        (a.exit_cap_rate / 100) := by
    rw [sale_price, if_pos hexit, terminal_noi, noi_year_growth a hwf hog, mul_assoc, hpow]
  simp only [twoWayCellEM, testVal_base]
  simp only [baseVal]
  rw [if_neg (by simp)]
  simp only [hds, hrb]
  rw [equity_multiple, if_pos heq, net_sale_proceeds, sale_costs, hrb, btcf_sum]
  simp only [btcf_year, hds, noi_year_growth a hwf hog, Nat.add_sub_cancel, sub_zero]
  rw [hsale, div_sub_div_same]
  congr 1
  ring

/-- C6 (witness): the amended statement evaluated on the small all-cash
deal with both tested variables (vacancy, OpEx growth) at base. -/
theorem claim_C6_witness :
    0 < equity_required smallDeal ∧
      twoWayCellEM smallDeal SensVar.vacancyRate SensVar.opexGrowthRate
          (baseVal smallDeal SensVar.vacancyRate)
          (baseVal smallDeal SensVar.opexGrowthRate) -
        equity_multiple smallDeal =
        sale_price smallDeal * ((smallDeal.selling_costs - 6) / 100) /
          equity_required smallDeal :=
  ⟨by norm_num [equity_required, total_acquisition, loan_amount, smallDeal],
   claim_C6 smallDeal SensVar.vacancyRate SensVar.opexGrowthRate
     (by norm_num [WF, smallDeal]) (by norm_num [smallDeal]) (by norm_num [smallDeal])
     (by norm_num [smallDeal]) (by norm_num [smallDeal])
     (by norm_num [equity_required, total_acquisition, loan_amount, smallDeal])⟩

end CRE
